import Mathlib

/-!
Shallow embedding of `wheelman.py`, a linear build-and-publish pipeline:
configuration loading, a per-target build loop shelling out to external
commands, and a conditional publish step.  External subprocess results are
modelled by an environment function from commands to return codes; Python
exceptions that the script can raise or swallow are modelled explicitly.
-/

/- The `ExitCodes` class of wheelman.py (lines 38-53): the fixed enumeration
of process exit codes. -/
namespace ExitCodes

def SUCCESS : Nat := 0

def UNSPECIFIED : Nat := 1

def MISSING_DEPENDENCIES : Nat := 10

def CONFIG_FILE_NOT_FOUND : Nat := 11

def CONFIG_YAML_PARSING_ERROR : Nat := 12

def BUILD_FAILED_WHEEL : Nat := 20

def BUILD_FAILED_SOURCE_DIST : Nat := 21

def PIP_FAILURE : Nat := 30

def PYPI_FAILURE : Nat := 50

def PYPI_MISSING_ENVIRONMENT_VARS : Nat := 51

def PYPI_MISSING_CONFIG_VARS : Nat := 52

end ExitCodes

/-- Python attribute lookup on the `ExitCodes` class: exactly the attributes
defined in lines 38-53 of the source resolve; any other name raises
`AttributeError` at the point of use (modelled by `none`). -/
def exitCodesAttr : String → Option Nat
  | "SUCCESS" => some ExitCodes.SUCCESS
  | "UNSPECIFIED" => some ExitCodes.UNSPECIFIED
  | "MISSING_DEPENDENCIES" => some ExitCodes.MISSING_DEPENDENCIES
  | "CONFIG_FILE_NOT_FOUND" => some ExitCodes.CONFIG_FILE_NOT_FOUND
  | "CONFIG_YAML_PARSING_ERROR" => some ExitCodes.CONFIG_YAML_PARSING_ERROR
  | "BUILD_FAILED_WHEEL" => some ExitCodes.BUILD_FAILED_WHEEL
  | "BUILD_FAILED_SOURCE_DIST" => some ExitCodes.BUILD_FAILED_SOURCE_DIST
  | "PIP_FAILURE" => some ExitCodes.PIP_FAILURE
  | "PYPI_FAILURE" => some ExitCodes.PYPI_FAILURE
  | "PYPI_MISSING_ENVIRONMENT_VARS" => some ExitCodes.PYPI_MISSING_ENVIRONMENT_VARS
  | "PYPI_MISSING_CONFIG_VARS" => some ExitCodes.PYPI_MISSING_CONFIG_VARS
  | _ => none

/-- One build unit from the configuration: `python` interpreter plus the two
build-kind flags.  In the source the flags are read with
`target.get('sdist', False)` and `target.get('wheel', False)`, so absence is
`false`; here an absent flag is represented by the default. -/
structure TargetSpec where
  python : String
  sdist : Bool := false
  wheel : Bool := false
  deriving DecidableEq

/-- The `pypi` sub-mapping of the configuration.  `none` fields model keys
absent from the mapping; the source reads them with `.get` and a default. -/
structure PypiConfig where
  only_upload_tags : Option Bool := none
  target_url : Option String := none
  deriving DecidableEq

/-- The root configuration mapping produced by the YAML load.  `targets` is
kept as an association list to model the Python dict. -/
structure BuildConfig where
  name : String
  include_files : List String
  targets : List (String × List TargetSpec)
  pypi : Option PypiConfig
  deriving DecidableEq

/-- Python `dict.get(key, default)` on an association list. -/
def dictGet {α : Type} (m : List (String × α)) (k : String) (d : α) : α :=
  match m.find? (fun kv => kv.1 == k) with
  | some kv => kv.2
  | none => d

/-- Line 140 of the source: `config['targets'].get(args.target, ())`. -/
def selectedTargets (targetsMap : List (String × List TargetSpec)) (sel : String) :
    List TargetSpec :=
  dictGet targetsMap sel []

/-- A source position reported by the YAML library on a parse failure.
Both coordinates are 0-based, as `problem_mark.line` and
`problem_mark.column` are in the library. -/
structure Mark where
  line : Nat
  column : Nat
  deriving DecidableEq

/-- A Python exception raised while opening and parsing the config file.
`yamlError` is a `yaml.YAMLError`, optionally carrying a `problem_mark`;
`ioError` is the open failure (e.g. file not found); `otherExc` is any other
exception class. -/
inductive PyExc where
  | yamlError (problemMark : Option Mark)
  | ioError (msg : String)
  | otherExc (cls : String) (msg : String)
  deriving DecidableEq

/-- Exception-class test for the first handler (`except yaml.YAMLError`):
only a `yaml.YAMLError` matches it; every exception matches the second
handler (`except Exception`). -/
def isYAMLError : PyExc → Bool
  | PyExc.yamlError _ => true
  | _ => false

/-- The `problem_mark` attribute of the exception, when present. -/
def problemMarkOf : PyExc → Option Mark
  | PyExc.yamlError m => m
  | _ => none

/-- Outcome of the configuration-loading section: either a loaded config, or
a process exit carrying the exit code and the 1-based position printed when
the parser provided one. -/
inductive LoadOutcome where
  | loaded (c : BuildConfig)
  | exited (code : Nat) (reportedPos : Option (Nat × Nat))
  deriving DecidableEq

/-- Lines 96-111 of the source: the config load try/except chain.  A
`yaml.YAMLError` exits with `CONFIG_YAML_PARSING_ERROR`, printing
`(mark.line+1, mark.column+1)` when a `problem_mark` is available; any other
exception (including the open failure) exits with `CONFIG_FILE_NOT_FOUND`. -/
def loadConfig (attempt : Except PyExc BuildConfig) : LoadOutcome :=
  match attempt with
  | Except.ok c => LoadOutcome.loaded c
  | Except.error e =>
    if isYAMLError e then
      LoadOutcome.exited ExitCodes.CONFIG_YAML_PARSING_ERROR
        ((problemMarkOf e).map fun m => (m.line + 1, m.column + 1))
    else
      LoadOutcome.exited ExitCodes.CONFIG_FILE_NOT_FOUND none

/-- An external command invoked via `subprocess.run` in the source. -/
inductive Cmd where
  | pipInstallWheel (py : String)
  | sdistBuild (py : String)
  | wheelBuild (py : String)
  | pipInstallTwine (py : String)
  | twineUpload (py : String) (url : String)
  deriving DecidableEq

/-- The interpreter a command is executed with. -/
def cmdPy : Cmd → String
  | Cmd.pipInstallWheel py => py
  | Cmd.sdistBuild py => py
  | Cmd.wheelBuild py => py
  | Cmd.pipInstallTwine py => py
  | Cmd.twineUpload py _ => py

/-- Result of the per-target `shutil.rmtree` of the egg-info directory:
either it succeeded, or it raised some exception (class and message). -/
inductive PyResult where
  | ok
  | exc (msg : String)
  deriving DecidableEq

/-- Lines 155-190 of the source, after the egg-info cleanup: assign
`py_exe`, run `pip install wheel` (exit `PIP_FAILURE` on non-zero), then the
conditional `sdist` and `wheel` builds, each exiting with its specific code
on non-zero return.  Returns the commands invoked, in order, and the exit
code when the target failed. -/
def runTargetBody (env : Cmd → Int) (t : TargetSpec) : List Cmd × Option Nat :=
  let pipC := Cmd.pipInstallWheel t.python
  if env pipC ≠ 0 then ([pipC], some ExitCodes.PIP_FAILURE)
  else
    if t.sdist then
      let sC := Cmd.sdistBuild t.python
      if env sC ≠ 0 then ([pipC, sC], some ExitCodes.BUILD_FAILED_SOURCE_DIST)
      else
        if t.wheel then
          let wC := Cmd.wheelBuild t.python
          if env wC ≠ 0 then ([pipC, sC, wC], some ExitCodes.BUILD_FAILED_WHEEL)
          else ([pipC, sC, wC], none)
        else ([pipC, sC], none)
    else
      if t.wheel then
        let wC := Cmd.wheelBuild t.python
        if env wC ≠ 0 then ([pipC, wC], some ExitCodes.BUILD_FAILED_WHEEL)
        else ([pipC, wC], none)
      else ([pipC], none)

/-- Lines 148-190: one iteration of the target loop.  The egg-info cleanup
is wrapped in `try: ... except Exception: pass` (lines 148-153), so its
result — success or any exception — is discarded and the body runs either
way. -/
def runTarget (env : Cmd → Int) (cleanup : PyResult) (t : TargetSpec) :
    List Cmd × Option Nat :=
  match cleanup with
  | PyResult.ok => runTargetBody env t
  | PyResult.exc _ => runTargetBody env t

/-- Result of the whole target loop: the commands invoked across all
iterations, the exit code if some target failed (`none` means control falls
through to the pypi section), and the final value of the `py_exe` variable
(`none` when it was never assigned, i.e. the loop body never ran). -/
structure LoopResult where
  trace : List Cmd
  exitC : Option Nat
  pyExe : Option String
  deriving DecidableEq

/-- Lines 140-190: the target loop.  `cl i` is the outcome of the egg-info
deletion attempted on iteration `i`.  A failing target terminates the
process immediately: no later target contributes to the trace. -/
def buildLoopAux (env : Cmd → Int) (cl : Nat → PyResult) :
    List TargetSpec → Nat → Option String → LoopResult
  | [], _, py0 => ⟨[], none, py0⟩
  | t :: ts, i, _ =>
    let p := runTarget env (cl i) t
    match p.2 with
    | some e => ⟨p.1, some e, some t.python⟩
    | none =>
      let r := buildLoopAux env cl ts (i + 1) (some t.python)
      ⟨p.1 ++ r.trace, r.exitC, r.pyExe⟩

/-- The target loop started as the script does: no `py_exe` assigned yet. -/
def buildLoop (env : Cmd → Int) (cl : Nat → PyResult) (ts : List TargetSpec) :
    LoopResult :=
  buildLoopAux env cl ts 0 none

/-- Outcome of the pypi section. `pythonError` models an uncaught Python
exception, which aborts the interpreter with a traceback rather than a
deliberate `exit(...)` call. -/
inductive PubOutcome where
  | published
  | skippedInfo
  | exited (code : Nat)
  | pythonError (msg : String)
  deriving DecidableEq

/-- Message of the uncaught exception raised when a branch evaluates an
`ExitCodes` attribute that the class does not define. -/
def attrErrMsg (attrName : String) : String :=
  "AttributeError: type object ExitCodes has no attribute " ++ attrName

/-- Evaluate `exit(ExitCodes.<attrName>)`: a defined attribute exits with its
code; an undefined one raises `AttributeError` before `exit` is called. -/
def exitAttr (attrName : String) : PubOutcome :=
  match exitCodesAttr attrName with
  | some c => PubOutcome.exited c
  | none => PubOutcome.pythonError (attrErrMsg attrName)

/-- Message of the uncaught `NameError` raised when the publish branch reads
`py_exe` although the target loop never assigned it. -/
def nameErrMsg : String := "NameError: name py_exe is not defined"

/-- Lines 214-250 of the source: the publish branch.  Reads
`pypi_config.get('target_url', '')` and exits `PYPI_MISSING_CONFIG_VARS` on a
falsy value; then runs `pip install twine` with the loop's `py_exe` (a
`NameError` if the loop never ran), exiting `PIP_FAILURE` on non-zero; a
failed twine import hits `exit(ExitCodes.ERROR_MISSING_DEPENDENCIES)`;
finally invokes `twine upload` with `sys.executable`, hitting
`exit(ExitCodes.PYPI_UPLOAD_FAILURE)` on non-zero return. -/
def publishBranch (pc : PypiConfig) (pyExe : Option String) (env : Cmd → Int)
    (twineImportOk : Bool) (sysExecutable : String) : PubOutcome × List Cmd :=
  let url := pc.target_url.getD ""
  if url == "" then (PubOutcome.exited ExitCodes.PYPI_MISSING_CONFIG_VARS, [])
  else
    match pyExe with
    | none => (PubOutcome.pythonError nameErrMsg, [])
    | some py =>
      let c1 := Cmd.pipInstallTwine py
      if env c1 ≠ 0 then (PubOutcome.exited ExitCodes.PIP_FAILURE, [c1])
      else if twineImportOk = false then (exitAttr "ERROR_MISSING_DEPENDENCIES", [c1])
      else
        let c2 := Cmd.twineUpload sysExecutable url
        if env c2 ≠ 0 then (exitAttr "PYPI_UPLOAD_FAILURE", [c1, c2])
        else (PubOutcome.published, [c1, c2])

/-- Which of the three arms of the publisher if/elif/else is taken. -/
inductive PubDecision where
  | publish
  | missingEnvVars
  | skipInfo
  deriving DecidableEq

/-- Lines 207-212 and 252-253: the publisher branch conditions.  The if arm
requires both credentials and `(only_tags and is_tag) or (not only_tags)`;
the elif arm requires a missing credential and `pypi_username !=
pypi_password` (comparing `Option`s, as Python compares a string with
`None`); everything else falls to the info-message arm. -/
def publisherDecision (u p : Option String) (only_tags is_tag : Bool) : PubDecision :=
  if u.isSome && p.isSome && ((only_tags && is_tag) || !only_tags) then
    PubDecision.publish
  else if (u.isNone || p.isNone) && (u != p) then
    PubDecision.missingEnvVars
  else
    PubDecision.skipInfo

/-- Lines 207-264: the full publisher if/elif/else, dispatching on the
branch condition to the publish branch, the `PYPI_MISSING_ENVIRONMENT_VARS`
exit, or the skip-with-info arm. -/
def publisher (u p : Option String) (only_tags is_tag : Bool) (pc : PypiConfig)
    (pyExe : Option String) (env : Cmd → Int) (twineImportOk : Bool)
    (se : String) : PubOutcome × List Cmd :=
  match publisherDecision u p only_tags is_tag with
  | PubDecision.publish => publishBranch pc pyExe env twineImportOk se
  | PubDecision.missingEnvVars =>
      (PubOutcome.exited ExitCodes.PYPI_MISSING_ENVIRONMENT_VARS, [])
  | PubDecision.skipInfo => (PubOutcome.skippedInfo, [])

/-- Line 199: `pypi_config.get('only_upload_tags', True)`. -/
def onlyTagsOf (pc : PypiConfig) : Bool := pc.only_upload_tags.getD true

/-- Line 200: `os.environ.get('APPVEYOR_REPO_TAG', 'false') == 'true'`. -/
def isTagOf (appveyorRepoTag : Option String) : Bool :=
  appveyorRepoTag.getD "false" == "true"

/-- Final fate of a run once the target loop is reached: a deliberate exit
code, or an uncaught Python exception. -/
inductive RunOutcome where
  | exited (code : Nat)
  | pythonError (msg : String)
  deriving DecidableEq

/-- How a publisher outcome ends the process: both the published and the
skipped arms fall through to `exit(ExitCodes.SUCCESS)` at line 267. -/
def outcomeOf : PubOutcome → RunOutcome
  | PubOutcome.published => RunOutcome.exited ExitCodes.SUCCESS
  | PubOutcome.skippedInfo => RunOutcome.exited ExitCodes.SUCCESS
  | PubOutcome.exited e => RunOutcome.exited e
  | PubOutcome.pythonError m => RunOutcome.pythonError m

/-- Lines 195-267: the pypi section run after the target loop, given the
loop result.  `u`, `p`, `tagv` are the `TWINE_USERNAME`, `TWINE_PASSWORD`
and `APPVEYOR_REPO_TAG` environment variables. -/
def publisherStage (c : BuildConfig) (lr : LoopResult) (u p tagv : Option String)
    (tw : Bool) (se : String) (env : Cmd → Int) : List Cmd × RunOutcome :=
  let pc := c.pypi.getD ⟨none, none⟩
  let r := publisher u p (onlyTagsOf pc) (isTagOf tagv) pc lr.pyExe env tw se
  (r.2, outcomeOf r.1)

/-- Lines 140-267: the target loop followed by the pypi section.  A failing
target exits immediately with its code; otherwise control proceeds to the
publisher and the traces concatenate. -/
def pipelineAfterConfig (c : BuildConfig) (sel : String) (env : Cmd → Int)
    (cl : Nat → PyResult) (u p tagv : Option String) (tw : Bool) (se : String) :
    List Cmd × RunOutcome :=
  let lr := buildLoop env cl (selectedTargets c.targets sel)
  match lr.exitC with
  | some e => (lr.trace, RunOutcome.exited e)
  | none =>
    let ps := publisherStage c lr u p tagv tw se env
    (lr.trace ++ ps.1, ps.2)

/-- A subprocess environment in which every invoked command succeeds. -/
def pubEnv0 : Cmd → Int := fun _ => 0

/-- A subprocess environment in which the wheel build of interpreter `py1`
returns 1 and everything else succeeds. -/
def wheelFailEnv : Cmd → Int
  | Cmd.wheelBuild py => if py == "py1" then 1 else 0
  | _ => 0

/-- A subprocess environment in which the twine upload returns 1 and
everything else succeeds. -/
def uploadFailEnv : Cmd → Int
  | Cmd.twineUpload _ _ => 1
  | _ => 0

/-- Egg-info deletions that all succeed. -/
def clOk : Nat → PyResult := fun _ => PyResult.ok

/-- A wheel-only target on interpreter `py1`. -/
def tA : TargetSpec := ⟨"py1", false, true⟩

/-- A wheel-only target on interpreter `py2`. -/
def tB : TargetSpec := ⟨"py2", false, true⟩

/-- A target with both build flags absent (defaulting to false). -/
def tC : TargetSpec := ⟨"py3", false, false⟩

/-- A pypi config with a configured upload endpoint and no
`only_upload_tags` key. -/
def pcX : PypiConfig := ⟨none, some "https://pypi.example/simple"⟩

/-- A configuration whose `targets` mapping is empty. -/
def cEmpty : BuildConfig := ⟨"pkg", [], [], none⟩

/-!
Helper lemmas shared by the claim theorems.
-/

/-- The try/except around the egg-info deletion discards the deletion result:
each iteration behaves as its body regardless of the cleanup outcome. -/
lemma runTarget_eq_body (env : Cmd → Int) (c : PyResult) (t : TargetSpec) :
    runTarget env c t = runTargetBody env t := by
  cases c <;> rfl

/-- Every iteration of the target loop invokes `pip install wheel`. -/
lemma pip_mem_runTargetBody (env : Cmd → Int) (t : TargetSpec) :
    Cmd.pipInstallWheel t.python ∈ (runTargetBody env t).1 := by
  simp only [runTargetBody]
  split_ifs <;> simp

/-- Every command a target iteration invokes runs on that target's
interpreter. -/
lemma runTargetBody_python (env : Cmd → Int) (t : TargetSpec) :
    ∀ c ∈ (runTargetBody env t).1, cmdPy c = t.python := by
  simp only [runTargetBody]
  split_ifs <;> (intro c hc; fin_cases hc <;> rfl)

/-- The loop result does not depend on the egg-info deletion outcomes. -/
lemma buildLoopAux_cl_irrel (env : Cmd → Int) (cl cl2 : Nat → PyResult) :
    ∀ (ts : List TargetSpec) (i j : Nat) (py0 : Option String),
      buildLoopAux env cl ts i py0 = buildLoopAux env cl2 ts j py0 := by
  intro ts
  induction ts with
  | nil => intro i j py0; rfl
  | cons t ts ih =>
    intro i j py0
    simp only [buildLoopAux, runTarget_eq_body]
    cases hr : (runTargetBody env t).2 <;>
      simp [hr, ih (i + 1) (j + 1) (some t.python)]

/-- Splitting `Option.elim` over a cons: the default only survives when the
whole list is empty. -/
lemma getLast_elim_cons {α β : Type} (ts : List α) :
    ∀ (t : α) (d : β) (f : α → β),
      (t :: ts).getLast?.elim d f = ts.getLast?.elim (f t) f := by
  induction ts with
  | nil => intro t d f; simp
  | cons u us ih =>
    intro t d f
    rw [List.getLast?_cons_cons, ih u d f, ih u (f t) f]

/-- When the loop runs to completion, the final `py_exe` is the interpreter
of the last target, or the initial value if the list was empty. -/
lemma buildLoopAux_pyExe_ok (env : Cmd → Int) (cl : Nat → PyResult) :
    ∀ (ts : List TargetSpec) (i : Nat) (py0 : Option String),
      (buildLoopAux env cl ts i py0).exitC = none →
      (buildLoopAux env cl ts i py0).pyExe
        = ts.getLast?.elim py0 (fun t => some t.python) := by
  intro ts
  induction ts with
  | nil => intro i py0 _; rfl
  | cons t ts ih =>
    intro i py0 hE
    rw [getLast_elim_cons]
    simp only [buildLoopAux] at hE ⊢
    cases hr : (runTarget env (cl i) t).2 with
    | some e => simp [hr] at hE
    | none =>
      simp only [hr] at hE ⊢
      exact ih (i + 1) (some t.python) hE

/-- Claim C1: for every run reaching the publisher, if username and password
are both present and only_upload_tags is false or is_tag is true, the
publish branch is taken; if both are present with only_upload_tags true and
is_tag false, it skips with an info message; if exactly one credential is
present it exits with `PYPI_MISSING_ENVIRONMENT_VARS` (51) regardless of the
flags; if neither is present it skips with an info message. -/
theorem publisher_decision_table (u p : String) (ot it : Bool) (pc : PypiConfig)
    (pyE : Option String) (env : Cmd → Int) (tw : Bool) (se : String) :
    ((!ot || it) = true →
      publisher (some u) (some p) ot it pc pyE env tw se
        = publishBranch pc pyE env tw se)
  ∧ (ot = true → it = false →
      publisher (some u) (some p) ot it pc pyE env tw se
        = (PubOutcome.skippedInfo, []))
  ∧ publisher (some u) none ot it pc pyE env tw se
      = (PubOutcome.exited ExitCodes.PYPI_MISSING_ENVIRONMENT_VARS, [])
  ∧ publisher none (some p) ot it pc pyE env tw se
      = (PubOutcome.exited ExitCodes.PYPI_MISSING_ENVIRONMENT_VARS, [])
  ∧ publisher none none ot it pc pyE env tw se
      = (PubOutcome.skippedInfo, []) := by
  refine ⟨?_, ?_, ?_, ?_, ?_⟩ <;>
    cases ot <;> cases it <;>
      simp [publisher, publisherDecision]

/-- Witness for C1: the decision table at literal inputs. -/
theorem publisher_decision_table_witness :
    publisher (some "u") (some "p") false false pcX (some "py3") pubEnv0 true "sysPy"
      = publishBranch pcX (some "py3") pubEnv0 true "sysPy"
  ∧ publisher (some "u") (some "p") true false pcX (some "py3") pubEnv0 true "sysPy"
      = (PubOutcome.skippedInfo, [])
  ∧ publisher (some "u") none true false pcX (some "py3") pubEnv0 true "sysPy"
      = (PubOutcome.exited ExitCodes.PYPI_MISSING_ENVIRONMENT_VARS, [])
  ∧ publisher none none true false pcX (some "py3") pubEnv0 true "sysPy"
      = (PubOutcome.skippedInfo, []) := by
  have h1 := publisher_decision_table "u" "p" false false pcX (some "py3")
      pubEnv0 true "sysPy"
  have h2 := publisher_decision_table "u" "p" true false pcX (some "py3")
      pubEnv0 true "sysPy"
  exact ⟨h1.1 rfl, h2.2.1 rfl rfl, h2.2.2.1, h2.2.2.2.2⟩

/-- Claim C2: if the first target of the selected group fails (wheel, sdist
or the install helper), the process exits with that specific code, the
trace is exactly the failing target's own commands, and no command of any
later target — in particular no `pip install wheel` for a later target's
interpreter — is ever invoked. -/
theorem build_failure_halts_later_targets (env : Cmd → Int) (cl : Nat → PyResult)
    (t1 : TargetSpec) (rest : List TargetSpec) (e : Nat)
    (h : (runTarget env (cl 0) t1).2 = some e) :
    (buildLoop env cl (t1 :: rest)).exitC = some e
  ∧ (buildLoop env cl (t1 :: rest)).trace = (runTarget env (cl 0) t1).1
  ∧ ∀ t2 ∈ rest, t2.python ≠ t1.python →
      Cmd.pipInstallWheel t2.python ∉ (buildLoop env cl (t1 :: rest)).trace := by
  have htr : buildLoop env cl (t1 :: rest)
      = ⟨(runTarget env (cl 0) t1).1, some e, some t1.python⟩ := by
    simp [buildLoop, buildLoopAux, h]
  refine ⟨by rw [htr], by rw [htr], ?_⟩
  intro t2 _ hne hmem
  rw [htr] at hmem
  rw [runTarget_eq_body] at hmem
  exact hne (runTargetBody_python env t1 _ hmem)

/-- Witness for C2: with two wheel targets where the first wheel build
fails, the loop exits with `BUILD_FAILED_WHEEL` and the second target's
install helper never runs. -/
theorem build_failure_halts_later_targets_witness :
    (buildLoop wheelFailEnv clOk [tA, tB]).exitC = some ExitCodes.BUILD_FAILED_WHEEL
  ∧ Cmd.pipInstallWheel "py2" ∉ (buildLoop wheelFailEnv clOk [tA, tB]).trace := by
  have h := build_failure_halts_later_targets wheelFailEnv clOk tA [tB]
      ExitCodes.BUILD_FAILED_WHEEL (by decide)
  refine ⟨h.1, ?_⟩
  exact h.2.2 tB (by decide) (by decide)

/-- Claim C3 (code bug): when the publish branch is taken and the upload
tool exits non-zero, the script evaluates `ExitCodes.PYPI_UPLOAD_FAILURE`,
an attribute the `ExitCodes` class does not define, so the run dies with an
uncaught `AttributeError` (interpreter status 1) instead of exiting with
`PYPI_FAILURE` = 50 as the claim states. -/
theorem upload_failure_hits_undefined_attribute :
    exitCodesAttr "PYPI_UPLOAD_FAILURE" = none
  ∧ (publishBranch pcX (some "py3") uploadFailEnv true "sysPy").1
      = PubOutcome.pythonError (attrErrMsg "PYPI_UPLOAD_FAILURE")
  ∧ (publishBranch pcX (some "py3") uploadFailEnv true "sysPy").1
      ≠ PubOutcome.exited ExitCodes.PYPI_FAILURE := by
  refine ⟨?_, ?_, ?_⟩ <;> decide

/-- Claim C4: when the `targets` mapping is empty or lacks the selector, the
selection is empty, the target loop invokes nothing and does not exit, and
the pipeline proceeds directly to the publisher stage. -/
theorem empty_selection_no_builds (c : BuildConfig) (sel : String)
    (env : Cmd → Int) (cl : Nat → PyResult) (u p tagv : Option String)
    (tw : Bool) (se : String)
    (h : c.targets = [] ∨ c.targets.find? (fun kv => kv.1 == sel) = none) :
    selectedTargets c.targets sel = []
  ∧ buildLoop env cl (selectedTargets c.targets sel) = ⟨[], none, none⟩
  ∧ pipelineAfterConfig c sel env cl u p tagv tw se
      = publisherStage c ⟨[], none, none⟩ u p tagv tw se env := by
  have hsel : selectedTargets c.targets sel = [] := by
    rcases h with h | h <;> simp [selectedTargets, dictGet, h]
  refine ⟨hsel, ?_, ?_⟩
  · rw [hsel]; rfl
  · simp only [pipelineAfterConfig, hsel]
    simp [buildLoop, buildLoopAux]

/-- Witness for C4: an empty `targets` mapping yields no build invocations
and control reaching the publisher stage. -/
theorem empty_selection_no_builds_witness :
    buildLoop pubEnv0 clOk (selectedTargets cEmpty.targets "appveyor")
      = ⟨[], none, none⟩
  ∧ pipelineAfterConfig cEmpty "appveyor" pubEnv0 clOk none none none true "sysPy"
      = publisherStage cEmpty ⟨[], none, none⟩ none none none true "sysPy" pubEnv0 := by
  have h := empty_selection_no_builds cEmpty "appveyor" pubEnv0 clOk
      none none none true "sysPy" (Or.inl rfl)
  exact ⟨h.2.1, h.2.2⟩

/-- Claim C5: a target whose `sdist` and `wheel` flags are both false (or
absent) invokes no build command, but its `pip install wheel` install-helper
step still runs — and is the only command of that iteration. -/
theorem no_flags_only_install_helper (env : Cmd → Int) (c : PyResult)
    (t : TargetSpec) (h1 : t.sdist = false) (h2 : t.wheel = false) :
    runTarget env c t
      = ([Cmd.pipInstallWheel t.python],
         if env (Cmd.pipInstallWheel t.python) ≠ 0 then
           some ExitCodes.PIP_FAILURE
         else none) := by
  rw [runTarget_eq_body]
  simp only [runTargetBody, h1, h2]
  split_ifs <;> simp_all

/-- Witness for C5: a flagless target runs exactly the install helper. -/
theorem no_flags_only_install_helper_witness :
    runTarget pubEnv0 PyResult.ok tC = ([Cmd.pipInstallWheel "py3"], none) := by
  have h := no_flags_only_install_helper pubEnv0 PyResult.ok tC rfl rfl
  rw [h]
  decide

/-- Claim C6: a structurally malformed configuration file exits with
`CONFIG_YAML_PARSING_ERROR` = 12 and, when the parser supplied a
`problem_mark`, reports the 1-based line and column of the failure point
(the mark itself being 0-based). -/
theorem malformed_config_exit_and_position (mark : Option Mark) :
    loadConfig (Except.error (PyExc.yamlError mark))
      = LoadOutcome.exited ExitCodes.CONFIG_YAML_PARSING_ERROR
          (mark.map fun m => (m.line + 1, m.column + 1)) := rfl

/-- Claim C7: a configuration file that cannot be opened exits with
`CONFIG_FILE_NOT_FOUND` = 11, never with the parse-error exit, and the two
failure kinds have distinct exit codes. -/
theorem missing_file_distinct_exit (msg : String) :
    loadConfig (Except.error (PyExc.ioError msg))
      = LoadOutcome.exited ExitCodes.CONFIG_FILE_NOT_FOUND none
  ∧ (∀ rep, loadConfig (Except.error (PyExc.ioError msg))
      ≠ LoadOutcome.exited ExitCodes.CONFIG_YAML_PARSING_ERROR rep)
  ∧ ExitCodes.CONFIG_FILE_NOT_FOUND ≠ ExitCodes.CONFIG_YAML_PARSING_ERROR := by
  refine ⟨rfl, ?_, by decide⟩
  intro rep h
  simp [loadConfig, isYAMLError, ExitCodes.CONFIG_FILE_NOT_FOUND,
    ExitCodes.CONFIG_YAML_PARSING_ERROR] at h

/-- Claim C8: a failure of the per-target egg-info deletion is swallowed
unconditionally: the iteration is identical to one whose deletion
succeeded, its install step still runs, and the whole loop result is
independent of every deletion outcome. -/
theorem cleanup_failure_swallowed (env : Cmd → Int) (t : TargetSpec)
    (msg : String) (cl cl2 : Nat → PyResult) (ts : List TargetSpec) :
    runTarget env (PyResult.exc msg) t = runTarget env PyResult.ok t
  ∧ Cmd.pipInstallWheel t.python ∈ (runTarget env (PyResult.exc msg) t).1
  ∧ buildLoop env cl ts = buildLoop env cl2 ts := by
  refine ⟨rfl, ?_, ?_⟩
  · rw [runTarget_eq_body]
    exact pip_mem_runTargetBody env t
  · exact buildLoopAux_cl_irrel env cl cl2 ts 0 0 none

/-- Claim C9: when the loop finishes without failing, the `py_exe` the
publish branch later uses is the interpreter of the last iterated target
(`none` when the group was empty, since the variable was never assigned);
with an empty group the install-upload-tool step raises a `NameError` as
soon as a non-empty endpoint lets it run, and the publish can never
complete. -/
theorem py_exe_from_last_target (env : Cmd → Int) (cl : Nat → PyResult)
    (ts : List TargetSpec) (pc : PypiConfig) (tw : Bool) (se : String) :
    ((buildLoop env cl ts).exitC = none →
      (buildLoop env cl ts).pyExe
        = ts.getLast?.elim none (fun t => some t.python))
  ∧ (pc.target_url.getD "" ≠ "" →
      (publishBranch pc none env tw se).1 = PubOutcome.pythonError nameErrMsg)
  ∧ (publishBranch pc none env tw se).1 ≠ PubOutcome.published := by
  refine ⟨?_, ?_, ?_⟩
  · intro hE
    exact buildLoopAux_pyExe_ok env cl ts 0 none hE
  · intro hurl
    simp [publishBranch, hurl]
  · simp only [publishBranch]
    split <;> simp

/-- Witness for C9: a two-target group ends with the second interpreter as
`py_exe`; an empty group with a configured endpoint hits the NameError. -/
theorem py_exe_from_last_target_witness :
    (buildLoop pubEnv0 clOk [tA, tB]).pyExe = some "py2"
  ∧ (publishBranch pcX none pubEnv0 true "sysPy").1
      = PubOutcome.pythonError nameErrMsg := by
  have h := py_exe_from_last_target pubEnv0 clOk [tA, tB] pcX true "sysPy"
  refine ⟨?_, h.2.1 (by decide)⟩
  rw [h.1 (by decide)]
  decide

/-- Claim C10: in the publish branch, a `target_url` present but equal to
the empty string behaves exactly like an absent key: the process exits with
`PYPI_MISSING_CONFIG_VARS` = 52 before any install or upload invocation. -/
theorem empty_target_url_missing_config (ot : Option Bool) (pyE : Option String)
    (env : Cmd → Int) (tw : Bool) (se : String) :
    publishBranch ⟨ot, some ""⟩ pyE env tw se
      = (PubOutcome.exited ExitCodes.PYPI_MISSING_CONFIG_VARS, [])
  ∧ publishBranch ⟨ot, some ""⟩ pyE env tw se
      = publishBranch ⟨ot, none⟩ pyE env tw se := by
  constructor <;> rfl
